import Mathlib

/-!
Shallow embedding of the FinTrack client cache and background-sync layer
(`src/app/src/utils/userCacheManager.ts`, `financialCacheManager.ts`, and the
`BackgroundSync` class in `apiClient.ts`), together with theorems settling the
spec's claims about it.

Modelling conventions:
* The asynchronous key-value store (Capacitor Preferences) is modelled as an
  explicit state record threaded through each operation.
* Each network call is an oracle parameter of type `NetResult α`: `ok status
  body` models a resolved HTTP response, `err` a thrown network error.
* JavaScript string truthiness (`""`, `null` and `undefined` are falsy) is
  modelled by `truthy` on `Option String`; the `a || b` idiom on strings is
  `jsOr`.
* `new Date().toISOString()` / `Date.now()` are the explicit parameters
  `now` / `nowMs`.
-/

namespace FinTrack

/-- JS truthiness of a nullable string: `null`/`undefined` and `""` are falsy. -/
def truthy : Option String → Bool
  | none => false
  | some s => s != ""

/-- The JS idiom `a || b` on a nullable string `a` with string fallback `b`. -/
def jsOr (a : Option String) (b : String) : String :=
  match a with
  | some s => if s == "" then b else s
  | none => b

/-- Outcome of one network call: a resolved HTTP response with a status code
and a body, or a thrown error. -/
inductive NetResult (α : Type) where
  | ok (status : Nat) (body : α)
  | err
deriving Repr, DecidableEq

/-! ## User cache (`userCacheManager.ts`, `capacitorPreferences.ts`) -/

/-- The `CachedUserData` shape (the fields the cache layer inspects). -/
structure UserData where
  name : String
  email : String
  photo : Option String
  created_at : String
  updated_at : Option String
deriving Repr, DecidableEq

/-- The slice of the key-value store owned by the user cache:
`fintrack_user_data`, `fintrack_user_updated_at`, `fintrack_user_photo` and
`fintrack_user_photo_timestamp`. -/
structure UserCacheState where
  userData : Option UserData
  userUpdatedAt : Option String
  photoBlob : Option String
  photoTimestamp : Option String
deriving Repr, DecidableEq

/-- Return shape of `checkUserUpdateStatus`. -/
structure UserUpdateStatus where
  shouldUpdate : Bool
  cachedData : Option UserData
  serverTimestamp : Option String
deriving Repr, DecidableEq

/-- `UserCacheManager.checkUserUpdateStatus`, with the timestamp probe
(`ApiClient.getUserProfileTimestamp`) supplied as the oracle `probe`. -/
def checkUserUpdateStatus (probe : NetResult String) (s : UserCacheState) :
    UserUpdateStatus :=
  match probe with
  | .err =>
    { shouldUpdate := false, cachedData := s.userData, serverTimestamp := none }
  | .ok status serverTimestamp =>
    if status != 200 then
      { shouldUpdate := false, cachedData := s.userData, serverTimestamp := none }
    else
      let cachedTimestamp := s.userUpdatedAt
      let shouldUpdate :=
        if !s.userData.isSome || !truthy cachedTimestamp then true
        else if cachedTimestamp != some serverTimestamp then true
        else false
      { shouldUpdate := shouldUpdate, cachedData := s.userData,
        serverTimestamp := some serverTimestamp }

/-- `UserCacheManager.shouldFetchPhoto`. `getUserPhotoBlob` maps empty stored
strings to `null` (`photoBlob || null`), which `truthy` folds into the checks;
`kvFail` models the catch-all branch (a key-value read throwing), which
resolves to `true`. -/
def shouldFetchPhoto (kvFail : Bool) (s : UserCacheState)
    (userUpdatedAt : String) : Bool :=
  if kvFail then true
  else if !truthy s.photoBlob then true
  else if !truthy s.photoTimestamp then true
  else s.photoTimestamp != some userUpdatedAt

/-- `UserCacheManager.fetchAndCachePhotoBlob`: `photoFetch` is the oracle for
the binary download (`none` = failed fetch, swallowed by the internal catch);
`saveUserPhotoBlob` writes the timestamp key only when the timestamp is
truthy. -/
def fetchAndCachePhotoBlob (photoFetch : Option String)
    (timestamp : Option String) (s : UserCacheState) : UserCacheState :=
  match photoFetch with
  | none => s
  | some base64Data =>
    { s with
      photoBlob := some base64Data
      photoTimestamp := if truthy timestamp then timestamp else s.photoTimestamp }

/-- `saveUserData` from `capacitorPreferences.ts`: stores the data and, when
the timestamp argument is truthy, also the `updated_at` key. -/
def saveUserData (userData : UserData) (timestamp : Option String)
    (s : UserCacheState) : UserCacheState :=
  { s with
    userData := some userData
    userUpdatedAt := if truthy timestamp then timestamp else s.userUpdatedAt }

/-- `UserCacheManager.cacheUserData userData timestamp`: saves the record,
runs the photo-refresh decision keyed on the user's own `updated_at` field,
and finally saves the cache timestamp. -/
def cacheUserData (photoFetch : Option String) (now : String)
    (userData : UserData) (timestamp : Option String) (s : UserCacheState) :
    UserCacheState :=
  let cacheTimestamp := jsOr timestamp now
  let s1 := saveUserData userData (some cacheTimestamp) s
  let s2 :=
    if truthy userData.photo then
      let userUpdatedAt := jsOr userData.updated_at cacheTimestamp
      if shouldFetchPhoto false s1 userUpdatedAt then
        fetchAndCachePhotoBlob photoFetch (some userUpdatedAt) s1
      else s1
    else s1
  { s2 with userUpdatedAt := some cacheTimestamp }

/-- `UserCacheManager.getCachedPhotoDataUrl`: the cached blob as a data URL. -/
def getCachedPhotoDataUrl (s : UserCacheState) : Option String :=
  match s.photoBlob with
  | some b => if b != "" then some ("data:image/jpeg;base64," ++ b) else none
  | none => none

/-- `UserCacheManager.getCachedDataWithPhoto`: substitutes the cached photo
blob (as a data URL) for the photo field when one is present. -/
def getCachedDataWithPhoto (s : UserCacheState) (cachedData : Option UserData) :
    Option UserData :=
  match cachedData with
  | none => none
  | some d =>
    match getCachedPhotoDataUrl s with
    | some url => some { d with photo := some url }
    | none => some d

/-- Result of `getUserDataWithCache`: the returned data, the key-value store
afterwards, and how many calls were made to the full-fetch endpoint
(`ApiClient.getUserProfile`). -/
structure UserFetchOutcome where
  result : Option UserData
  state : UserCacheState
  getFullCalls : Nat
deriving Repr, DecidableEq

/-- `UserCacheManager.getUserDataWithCache`, with the probe and the full
profile fetch supplied as oracles. -/
def getUserDataWithCache (probe : NetResult String)
    (fetchFull : NetResult UserData) (photoFetch : Option String)
    (now : String) (s : UserCacheState) : UserFetchOutcome :=
  let updateStatus := checkUserUpdateStatus probe s
  if updateStatus.shouldUpdate || !updateStatus.cachedData.isSome then
    match fetchFull with
    | .ok status freshData =>
      if status == 200 then
        let timestamp := jsOr updateStatus.serverTimestamp now
        let s1 := cacheUserData photoFetch now freshData (some timestamp) s
        { result := getCachedDataWithPhoto s1 (some freshData), state := s1,
          getFullCalls := 1 }
      else
        { result := getCachedDataWithPhoto s updateStatus.cachedData, state := s,
          getFullCalls := 1 }
    | .err =>
      { result := getCachedDataWithPhoto s s.userData, state := s,
        getFullCalls := 1 }
  else
    { result := getCachedDataWithPhoto s updateStatus.cachedData, state := s,
      getFullCalls := 0 }

/-! ## Finance cache (`financialCacheManager.ts`) -/

/-- An account row as the cache layer sees it: `balance = none` models a
missing (`undefined`) balance field. -/
structure Account where
  id : Nat
  name : String
  balance : Option Int
deriving Repr, DecidableEq

/-- The `CachedFinanceData` shape stored under `fintrack_finance_data`.
Transactions are opaque to the cache layer and modelled as strings. -/
structure CachedFinanceData where
  transactions : List String
  accounts : List Account
  accountsWithBalances : List Account
  timestamp : String
  balanceTimestamp : Option String
deriving Repr, DecidableEq

/-- The slice of the key-value store owned by the finance cache:
`fintrack_finance_data` and `fintrack_finance_timestamp`. -/
structure FinanceCacheState where
  financeData : Option CachedFinanceData
  financeTimestamp : Option String
deriving Repr, DecidableEq

/-- Return shape of `checkFinanceUpdateStatus`. -/
structure FinanceUpdateStatus where
  shouldUpdate : Bool
  cachedData : Option CachedFinanceData
  serverTimestamp : Option String
deriving Repr, DecidableEq

/-- The data-shape validity check inside `determineShouldUpdate`:
`cachedData.accounts.length === 0 || cachedData.accounts.some((account) =>
account.balance !== undefined)`. -/
def accountsHaveBalance (accounts : List Account) : Bool :=
  accounts.length == 0 || accounts.any (fun account => account.balance.isSome)

/-- `FinancialCacheManager.determineShouldUpdate`. -/
def determineShouldUpdate (cachedData : Option CachedFinanceData)
    (cachedTimestamp : Option String) (serverTimestamp : String) : Bool :=
  if !cachedData.isSome || !truthy cachedTimestamp then true
  else
    match cachedData with
    | none => true
    | some d =>
      if !accountsHaveBalance d.accounts then true
      else if cachedTimestamp != some serverTimestamp then true
      else false

/-- `FinancialCacheManager.checkFinanceUpdateStatus`, with the timestamp probe
(`ApiClient.getFinanceTimestamp`) supplied as the oracle `probe`. -/
def checkFinanceUpdateStatus (probe : NetResult String) (s : FinanceCacheState) :
    FinanceUpdateStatus :=
  match probe with
  | .err =>
    { shouldUpdate := false, cachedData := s.financeData, serverTimestamp := none }
  | .ok status serverTimestamp =>
    if status != 200 then
      { shouldUpdate := false, cachedData := s.financeData,
        serverTimestamp := none }
    else
      { shouldUpdate :=
          determineShouldUpdate s.financeData s.financeTimestamp serverTimestamp,
        cachedData := s.financeData, serverTimestamp := some serverTimestamp }

/-- `FinancialCacheManager.cacheFinanceData`: stores the bundle (with
`accountsWithBalances := accounts`) and the timestamp key together. -/
def cacheFinanceData (now : String) (transactions : List String)
    (accounts : List Account) (timestamp : Option String)
    (s : FinanceCacheState) : FinanceCacheState :=
  let cacheTimestamp := jsOr timestamp now
  let _ := s
  { financeData := some
      { transactions := transactions, accounts := accounts,
        accountsWithBalances := accounts, timestamp := cacheTimestamp,
        balanceTimestamp := some cacheTimestamp },
    financeTimestamp := some cacheTimestamp }

/-- `FinancialCacheManager.getFallbackFinanceData`: cached lists or empty. -/
def getFallbackFinanceData (s : FinanceCacheState) :
    List String × List Account :=
  match s.financeData with
  | some d => (d.transactions, d.accounts)
  | none => ([], [])

/-- `FinancialCacheManager.fetchAndCacheFinanceData`: one full fetch issuing
`searchTransactions` and `getAccountsSummary` in parallel. A thrown error in
either (`.err`) propagates to the caller (`none`); a non-200 status falls back
to cached data without storing anything. -/
def fetchAndCacheFinanceData (txResp : NetResult (List String))
    (accResp : NetResult (List Account)) (now : String)
    (serverTimestamp : Option String) (s : FinanceCacheState) :
    Option (List String × List Account × FinanceCacheState) :=
  match txResp, accResp with
  | .err, _ => none
  | .ok _ _, .err => none
  | .ok txStatus transactions, .ok accStatus accounts =>
    if txStatus == 200 && accStatus == 200 then
      let timestamp := jsOr serverTimestamp now
      let s1 := cacheFinanceData now transactions accounts (some timestamp) s
      some (transactions, accounts, s1)
    else
      let fb := getFallbackFinanceData s
      some (fb.1, fb.2, s)

/-- Result of `getFinanceDataWithCache`: the returned lists, the key-value
store afterwards, and how many full fetches were issued. -/
structure FinanceOutcome where
  transactions : List String
  accounts : List Account
  state : FinanceCacheState
  fullFetchCalls : Nat
deriving Repr, DecidableEq

/-- `FinancialCacheManager.getFinanceDataWithCache`, with the probe and the
two halves of the full fetch supplied as oracles. -/
def getFinanceDataWithCache (probe : NetResult String)
    (txResp : NetResult (List String)) (accResp : NetResult (List Account))
    (now : String) (s : FinanceCacheState) : FinanceOutcome :=
  let updateStatus := checkFinanceUpdateStatus probe s
  if updateStatus.shouldUpdate || !updateStatus.cachedData.isSome then
    match fetchAndCacheFinanceData txResp accResp now
        updateStatus.serverTimestamp s with
    | some (tx, acc, s1) =>
      { transactions := tx, accounts := acc, state := s1, fullFetchCalls := 1 }
    | none =>
      let fb := getFallbackFinanceData s
      { transactions := fb.1, accounts := fb.2, state := s, fullFetchCalls := 1 }
  else
    match updateStatus.cachedData with
    | some d =>
      { transactions := d.transactions, accounts := d.accounts, state := s,
        fullFetchCalls := 0 }
    | none =>
      { transactions := [], accounts := [], state := s, fullFetchCalls := 0 }

/-- `FinancialCacheManager.forceRefreshFinanceData`: unconditionally fetches
and, on success, caches with a freshly generated client clock value (`now`),
never a server-issued timestamp. Returns `none` on any failure. -/
def forceRefreshFinanceData (txResp : NetResult (List String))
    (accResp : NetResult (List Account)) (now : String)
    (s : FinanceCacheState) :
    Option (List String × List Account) × FinanceCacheState :=
  match txResp, accResp with
  | .err, _ => (none, s)
  | .ok _ _, .err => (none, s)
  | .ok txStatus transactions, .ok accStatus accounts =>
    if txStatus == 200 && accStatus == 200 then
      let timestamp := now
      let s1 := cacheFinanceData now transactions accounts (some timestamp) s
      (some (transactions, accounts), s1)
    else (none, s)

/-! ## Background sync (`BackgroundSync` in `apiClient.ts`) -/

/-- A `PendingUserUpdate`: the queued partial update (an opaque field map),
its `Date.now()` enqueue time, and the synced flag. -/
structure PendingUserUpdate where
  data : List (String × String)
  timestamp : Nat
  synced : Bool
deriving Repr, DecidableEq

/-- The static state of `BackgroundSync`. -/
structure SyncState where
  pendingUpdates : List PendingUserUpdate
  isCurrentlySyncing : Bool
deriving Repr, DecidableEq

/-- `BackgroundSync.queueUserUpdate`: drops every unsynced entry, keeps the
synced history, and appends the new entry unsynced. -/
def queueUserUpdate (userData : List (String × String)) (nowMs : Nat)
    (s : SyncState) : SyncState :=
  let update : PendingUserUpdate :=
    { data := userData, timestamp := nowMs, synced := false }
  { s with pendingUpdates :=
      s.pendingUpdates.filter (fun u => u.synced) ++ [update] }

/-- `BackgroundSync.shouldAttemptSync`: false while a sync is in flight. -/
def shouldAttemptSync (s : SyncState) : Bool :=
  !s.isCurrentlySyncing

/-- Result of `attemptSync`: its boolean return value, the sync state and
user cache afterwards, the number of mutation requests issued to
`ApiClient.updateUserProfile`, and the payload sent (when any). -/
structure SyncOutcome where
  result : Bool
  sync : SyncState
  cache : UserCacheState
  networkCalls : Nat
  sentData : Option (List (String × String))
deriving Repr, DecidableEq

/-- `BackgroundSync.handleSyncSuccess`: derives the authoritative timestamp
from the server response, writes the response back through
`UserCacheManager.cacheUserData` and `saveUserUpdatedAt`, and marks every
pending entry synced. -/
def handleSyncSuccess (photoFetch : Option String) (now : String)
    (serverData : UserData) (s : SyncState) (c : UserCacheState) :
    SyncState × UserCacheState :=
  let serverTimestamp := jsOr serverData.updated_at serverData.created_at
  let c1 := cacheUserData photoFetch now serverData (some serverTimestamp) c
  let c2 := { c1 with userUpdatedAt := some serverTimestamp }
  ({ s with pendingUpdates :=
      s.pendingUpdates.map (fun u => { u with synced := true }) }, c2)

/-- `BackgroundSync.performSync`: sets the syncing flag, sends the most recent
unsynced entry, and resets the flag in the `finally` block on every path. -/
def performSync (mutateResp : NetResult UserData) (photoFetch : Option String)
    (now : String) (unsyncedUpdates : List PendingUserUpdate) (s : SyncState)
    (c : UserCacheState) : SyncOutcome :=
  let sentData := (unsyncedUpdates.getLast?).map (fun u => u.data)
  match mutateResp with
  | .ok status serverData =>
    if status == 200 then
      let p := handleSyncSuccess photoFetch now serverData s c
      { result := true, sync := { p.1 with isCurrentlySyncing := false },
        cache := p.2, networkCalls := 1, sentData := sentData }
    else
      { result := false, sync := { s with isCurrentlySyncing := false },
        cache := c, networkCalls := 1, sentData := sentData }
  | .err =>
    { result := false, sync := { s with isCurrentlySyncing := false },
      cache := c, networkCalls := 1, sentData := sentData }

/-- `BackgroundSync.attemptSync`, with the server mutation supplied as the
oracle `mutateResp`. -/
def attemptSync (mutateResp : NetResult UserData) (photoFetch : Option String)
    (now : String) (s : SyncState) (c : UserCacheState) : SyncOutcome :=
  if !shouldAttemptSync s then
    { result := false, sync := s, cache := c, networkCalls := 0,
      sentData := none }
  else
    let unsyncedUpdates := s.pendingUpdates.filter (fun u => !u.synced)
    if unsyncedUpdates.length == 0 then
      { result := true, sync := s, cache := c, networkCalls := 0,
        sentData := none }
    else
      performSync mutateResp photoFetch now unsyncedUpdates s c

/-- A sequence of `queueUserUpdate` calls applied in order. -/
def enqueueAll (updates : List (List (String × String) × Nat))
    (s : SyncState) : SyncState :=
  updates.foldl (fun st u => queueUserUpdate u.1 u.2 st) s

/-! ## Concrete sample inputs (used by witnesses and counterexamples) -/

/-- An account row with no balance field, as in the spec's Scenario B. -/
def acctNoBal : Account := { id := 1, name := "Checking", balance := none }

/-- An account row carrying a resolved balance. -/
def acctWithBal : Account := { id := 1, name := "Checking", balance := some 5 }

/-- Scenario B finance bundle: accounts lack the balance field. -/
def finInvalid : CachedFinanceData :=
  { transactions := [], accounts := [acctNoBal],
    accountsWithBalances := [acctNoBal], timestamp := "T",
    balanceTimestamp := some "T" }

/-- Finance cache holding the Scenario B bundle with timestamp `"T"`. -/
def sFinInvalid : FinanceCacheState :=
  { financeData := some finInvalid, financeTimestamp := some "T" }

/-- A shape-valid finance bundle with timestamp `"T"`. -/
def finValid : CachedFinanceData :=
  { transactions := ["tx1"], accounts := [acctWithBal],
    accountsWithBalances := [acctWithBal], timestamp := "T",
    balanceTimestamp := some "T" }

/-- Finance cache holding the shape-valid bundle with timestamp `"T"`. -/
def sFinValid : FinanceCacheState :=
  { financeData := some finValid, financeTimestamp := some "T" }

/-- A concrete cached user record with timestamp `"T"`. -/
def uCached : UserData :=
  { name := "Alice", email := "alice@example.com", photo := none,
    created_at := "t0", updated_at := some "T" }

/-- A concrete server response record carrying `updated_at = "t2"`. -/
def uServer : UserData :=
  { name := "Alicia", email := "alice@example.com", photo := none,
    created_at := "t0", updated_at := some "t2" }

/-- User cache holding `uCached` under timestamp `"T"`, no photo. -/
def sUserCached : UserCacheState :=
  { userData := some uCached, userUpdatedAt := some "T", photoBlob := none,
    photoTimestamp := none }

/-- An empty user cache. -/
def emptyUserCache : UserCacheState :=
  { userData := none, userUpdatedAt := none, photoBlob := none,
    photoTimestamp := none }

/-- User cache with a photo blob cached under version marker `"t1"`. -/
def sPhotoCached : UserCacheState :=
  { userData := some uCached, userUpdatedAt := some "T",
    photoBlob := some "blobdata", photoTimestamp := some "t1" }

/-- Sync queue with one unsynced entry while a sync is in flight. -/
def sBusySync : SyncState :=
  { pendingUpdates := [⟨[("name", "A")], 1, false⟩],
    isCurrentlySyncing := true }

/-- Idle sync queue with one synced and one unsynced entry. -/
def sIdleSync : SyncState :=
  { pendingUpdates :=
      [⟨[("name", "Old")], 0, true⟩, ⟨[("name", "Alicia")], 2, false⟩],
    isCurrentlySyncing := false }

/-! ## Helper lemmas -/

lemma truthy_some_of_ne {s : String} (h : s ≠ "") : truthy (some s) = true := by
  simp [truthy, h]

lemma jsOr_some_of_ne {s : String} (b : String) (h : s ≠ "") :
    jsOr (some s) b = s := by
  simp [jsOr, h]

lemma jsOr_some_self (b : String) : jsOr (some b) b = b := by
  show (if (b == "") = true then b else b) = b
  split <;> rfl

lemma filter_unsynced_filter_synced (l : List PendingUserUpdate) :
    (l.filter (fun u => u.synced)).filter (fun u => !u.synced) = [] := by
  induction l with
  | nil => rfl
  | cons a l ih =>
    by_cases h : a.synced = true <;> simp [List.filter_cons, h, ih]

lemma filter_unsynced_map_syncedTrue (l : List PendingUserUpdate) :
    (l.map (fun u => { u with synced := true })).filter
      (fun u => !u.synced) = [] := by
  induction l with
  | nil => rfl
  | cons a l ih => simp [List.filter_cons, ih]

lemma queueUserUpdate_unsynced (d : List (String × String)) (n : Nat)
    (s : SyncState) :
    (queueUserUpdate d n s).pendingUpdates.filter (fun u => !u.synced) =
      [{ data := d, timestamp := n, synced := false }] := by
  simp [queueUserUpdate, List.filter_append, filter_unsynced_filter_synced]

lemma fetchAndCachePhotoBlob_userData (photoFetch : Option String)
    (timestamp : Option String) (s : UserCacheState) :
    (fetchAndCachePhotoBlob photoFetch timestamp s).userData = s.userData := by
  unfold fetchAndCachePhotoBlob
  cases photoFetch <;> rfl

lemma cacheUserData_userData (photoFetch : Option String) (now : String)
    (userData : UserData) (timestamp : Option String) (s : UserCacheState) :
    (cacheUserData photoFetch now userData timestamp s).userData =
      some userData := by
  unfold cacheUserData
  dsimp only
  split
  · split
    · rw [fetchAndCachePhotoBlob_userData]
      rfl
    · rfl
  · rfl

lemma cacheUserData_userUpdatedAt (photoFetch : Option String) (now : String)
    (userData : UserData) (timestamp : Option String) (s : UserCacheState) :
    (cacheUserData photoFetch now userData timestamp s).userUpdatedAt =
      some (jsOr timestamp now) := rfl

lemma performSync_ok200 (photoFetch : Option String) (now : String)
    (serverData : UserData) (unsynced : List PendingUserUpdate)
    (s : SyncState) (c : UserCacheState) :
    performSync (.ok 200 serverData) photoFetch now unsynced s c =
      { result := true,
        sync := ⟨s.pendingUpdates.map (fun u => { u with synced := true }),
          false⟩,
        cache := (handleSyncSuccess photoFetch now serverData s c).2,
        networkCalls := 1,
        sentData := (unsynced.getLast?).map (fun u => u.data) } := rfl

lemma cacheFinanceData_financeTimestamp (now : String) (tx : List String)
    (acc : List Account) (timestamp : Option String) (s : FinanceCacheState) :
    (cacheFinanceData now tx acc timestamp s).financeTimestamp =
      some (jsOr timestamp now) := rfl

/-! ## Claim theorems -/

/-- C1 counterexample: with the Scenario B cache (a stored payload whose
accounts lack balances) and the probe answering exactly the cached timestamp
`"T"`, `getFinanceDataWithCache` issues one full-fetch call, not zero. -/
theorem getWithCache_counterexample :
    sFinInvalid.financeTimestamp = some "T"
    ∧ (getFinanceDataWithCache (.ok 200 "T") (.ok 200 [])
        (.ok 200 [acctWithBal]) "now" sFinInvalid).fullFetchCalls = 1 :=
  ⟨rfl, rfl⟩

/-- C1 (amended): for a cached record state holding payload `P` with
timestamp `T` whose payload passes the data-shape validity check (trivially
for the user cache; for the finance cache, the accounts list is empty or some
account carries a balance), when the server probe succeeds: a probe answering
the same `T` makes `getUserDataWithCache` / `getFinanceDataWithCache` return
the cached payload with zero full-fetch calls, and a probe answering
`T2 ≠ T` with a successful full fetch issues exactly one full-fetch call and
leaves the cache holding timestamp `T2`. -/
theorem getWithCache_timestampDiscipline
    (su : UserCacheState) (P : UserData) (T T2 : String)
    (fetchU : NetResult UserData) (freshU : UserData)
    (sf : FinanceCacheState) (F : CachedFinanceData)
    (txResp : NetResult (List String)) (accResp : NetResult (List Account))
    (tx : List String) (acc : List Account)
    (photoFetch : Option String) (now : String)
    (hP : su.userData = some P) (hT : su.userUpdatedAt = some T)
    (hF : sf.financeData = some F) (hFT : sf.financeTimestamp = some T)
    (hshape : accountsHaveBalance F.accounts = true)
    (hTne : T ≠ "") (hT2ne : T2 ≠ "") (hne : T2 ≠ T) :
    ((getUserDataWithCache (.ok 200 T) fetchU photoFetch now
        su).getFullCalls = 0
      ∧ (getUserDataWithCache (.ok 200 T) fetchU photoFetch now su).result
          = getCachedDataWithPhoto su (some P))
    ∧ ((getFinanceDataWithCache (.ok 200 T) txResp accResp now
        sf).fullFetchCalls = 0
      ∧ (getFinanceDataWithCache (.ok 200 T) txResp accResp now
          sf).transactions = F.transactions
      ∧ (getFinanceDataWithCache (.ok 200 T) txResp accResp now
          sf).accounts = F.accounts)
    ∧ ((getUserDataWithCache (.ok 200 T2) (.ok 200 freshU) photoFetch now
        su).getFullCalls = 1
      ∧ (getUserDataWithCache (.ok 200 T2) (.ok 200 freshU) photoFetch now
          su).state.userUpdatedAt = some T2)
    ∧ ((getFinanceDataWithCache (.ok 200 T2) (.ok 200 tx) (.ok 200 acc) now
        sf).fullFetchCalls = 1
      ∧ (getFinanceDataWithCache (.ok 200 T2) (.ok 200 tx) (.ok 200 acc) now
          sf).state.financeTimestamp = some T2) := by
  have hts2 : jsOr (some T2) now = T2 := jsOr_some_of_ne now hT2ne
  have hcu : checkUserUpdateStatus (.ok 200 T) su =
      { shouldUpdate := false, cachedData := some P,
        serverTimestamp := some T } := by
    simp [checkUserUpdateStatus, hP, hT, truthy_some_of_ne hTne]
  have hu0 : getUserDataWithCache (.ok 200 T) fetchU photoFetch now su =
      { result := getCachedDataWithPhoto su (some P), state := su,
        getFullCalls := 0 } := by
    simp [getUserDataWithCache, hcu]
  have hcu2 : checkUserUpdateStatus (.ok 200 T2) su =
      { shouldUpdate := true, cachedData := some P,
        serverTimestamp := some T2 } := by
    simp [checkUserUpdateStatus, hP, hT, truthy_some_of_ne hTne, bne_iff_ne,
      hne.symm]
  have hu1 : getUserDataWithCache (.ok 200 T2) (.ok 200 freshU) photoFetch
      now su =
      { result := getCachedDataWithPhoto
          (cacheUserData photoFetch now freshU (some (jsOr (some T2) now)) su)
          (some freshU),
        state := cacheUserData photoFetch now freshU
          (some (jsOr (some T2) now)) su,
        getFullCalls := 1 } := by
    simp [getUserDataWithCache, hcu2]
  have hcf : checkFinanceUpdateStatus (.ok 200 T) sf =
      { shouldUpdate := false, cachedData := some F,
        serverTimestamp := some T } := by
    simp [checkFinanceUpdateStatus, determineShouldUpdate, hF, hFT,
      truthy_some_of_ne hTne, hshape]
  have hf0 : getFinanceDataWithCache (.ok 200 T) txResp accResp now sf =
      { transactions := F.transactions, accounts := F.accounts, state := sf,
        fullFetchCalls := 0 } := by
    simp [getFinanceDataWithCache, hcf]
  have hcf2 : checkFinanceUpdateStatus (.ok 200 T2) sf =
      { shouldUpdate := true, cachedData := some F,
        serverTimestamp := some T2 } := by
    simp [checkFinanceUpdateStatus, determineShouldUpdate, hF, hFT,
      truthy_some_of_ne hTne, hshape, bne_iff_ne, hne.symm]
  have hf1 : getFinanceDataWithCache (.ok 200 T2) (.ok 200 tx) (.ok 200 acc)
      now sf =
      { transactions := tx, accounts := acc,
        state := cacheFinanceData now tx acc (some (jsOr (some T2) now)) sf,
        fullFetchCalls := 1 } := by
    simp [getFinanceDataWithCache, hcf2, fetchAndCacheFinanceData]
  refine ⟨⟨?_, ?_⟩, ⟨?_, ?_, ?_⟩, ⟨?_, ?_⟩, ⟨?_, ?_⟩⟩
  · rw [hu0]
  · rw [hu0]
  · rw [hf0]
  · rw [hf0]
  · rw [hf0]
  · rw [hu1]
  · rw [hu1]
    show (cacheUserData photoFetch now freshU
      (some (jsOr (some T2) now)) su).userUpdatedAt = some T2
    rw [hts2, cacheUserData_userUpdatedAt, hts2]
  · rw [hf1]
  · rw [hf1]
    show (cacheFinanceData now tx acc
      (some (jsOr (some T2) now)) sf).financeTimestamp = some T2
    rw [hts2, cacheFinanceData_financeTimestamp, hts2]

/-- C1 witness: the user cache holding `uCached` at `"T"` and the shape-valid
finance bundle at `"T"`, probed with `"T"` and then `"T2"`. -/
theorem getWithCache_timestampDiscipline_witness :
    ((getUserDataWithCache (.ok 200 "T") .err none "now"
        sUserCached).getFullCalls = 0
      ∧ (getUserDataWithCache (.ok 200 "T") .err none "now"
          sUserCached).result
          = getCachedDataWithPhoto sUserCached (some uCached))
    ∧ ((getFinanceDataWithCache (.ok 200 "T") .err .err "now"
        sFinValid).fullFetchCalls = 0
      ∧ (getFinanceDataWithCache (.ok 200 "T") .err .err "now"
          sFinValid).transactions = finValid.transactions
      ∧ (getFinanceDataWithCache (.ok 200 "T") .err .err "now"
          sFinValid).accounts = finValid.accounts)
    ∧ ((getUserDataWithCache (.ok 200 "T2") (.ok 200 uServer) none "now"
        sUserCached).getFullCalls = 1
      ∧ (getUserDataWithCache (.ok 200 "T2") (.ok 200 uServer) none "now"
          sUserCached).state.userUpdatedAt = some "T2")
    ∧ ((getFinanceDataWithCache (.ok 200 "T2") (.ok 200 ["t"])
        (.ok 200 [acctWithBal]) "now" sFinValid).fullFetchCalls = 1
      ∧ (getFinanceDataWithCache (.ok 200 "T2") (.ok 200 ["t"])
          (.ok 200 [acctWithBal]) "now"
          sFinValid).state.financeTimestamp = some "T2") :=
  getWithCache_timestampDiscipline sUserCached uCached "T" "T2" .err uServer
    sFinValid finValid .err .err ["t"] [acctWithBal] none "now" rfl rfl rfl
    rfl (by decide) (by decide) (by decide) (by decide)

/-- C5: if the server timestamp probe fails (non-200 status or a thrown
network error), `checkUserUpdateStatus` and `checkFinanceUpdateStatus` fail
soft: they return `shouldUpdate = false`, whatever data is cached (possibly
null), and a null `serverTimestamp`, without throwing. -/
theorem checkUpdateStatus_failSoft (su : UserCacheState)
    (sf : FinanceCacheState) (status : Nat) (ts : String) (h : status ≠ 200) :
    checkUserUpdateStatus .err su =
      { shouldUpdate := false, cachedData := su.userData,
        serverTimestamp := none }
    ∧ checkUserUpdateStatus (.ok status ts) su =
      { shouldUpdate := false, cachedData := su.userData,
        serverTimestamp := none }
    ∧ checkFinanceUpdateStatus .err sf =
      { shouldUpdate := false, cachedData := sf.financeData,
        serverTimestamp := none }
    ∧ checkFinanceUpdateStatus (.ok status ts) sf =
      { shouldUpdate := false, cachedData := sf.financeData,
        serverTimestamp := none } := by
  refine ⟨rfl, ?_, rfl, ?_⟩ <;>
    simp [checkUserUpdateStatus, checkFinanceUpdateStatus, h]

/-- C5 witness: a probe answering HTTP 500 over populated caches. -/
theorem checkUpdateStatus_failSoft_witness :
    checkUserUpdateStatus (.ok 500 "x") sUserCached =
      { shouldUpdate := false, cachedData := some uCached,
        serverTimestamp := none }
    ∧ checkFinanceUpdateStatus (.ok 500 "x") sFinValid =
      { shouldUpdate := false, cachedData := some finValid,
        serverTimestamp := none } :=
  ⟨(checkUpdateStatus_failSoft sUserCached sFinValid 500 "x" (by decide)).2.1,
   (checkUpdateStatus_failSoft sUserCached sFinValid 500 "x"
      (by decide)).2.2.2⟩

/-- C6: a cached finance bundle whose accounts all lack a balance field makes
`checkFinanceUpdateStatus` report `shouldUpdate = true` even when the cached
timestamp equals the timestamp the server probe returns. -/
theorem checkFinanceUpdateStatus_shapeInvalid (sf : FinanceCacheState)
    (F : CachedFinanceData) (T : String) (hF : sf.financeData = some F)
    (hT : sf.financeTimestamp = some T) (hTne : T ≠ "")
    (hne : F.accounts ≠ []) (hbal : ∀ a ∈ F.accounts, a.balance = none) :
    checkFinanceUpdateStatus (.ok 200 T) sf =
      { shouldUpdate := true, cachedData := some F,
        serverTimestamp := some T } := by
  have hb : accountsHaveBalance F.accounts = false := by
    simp only [accountsHaveBalance, Bool.or_eq_false_iff, beq_eq_false_iff_ne,
      ne_eq, List.length_eq_zero, List.any_eq_false]
    refine ⟨hne, fun a ha => ?_⟩
    simp [hbal a ha]
  simp [checkFinanceUpdateStatus, determineShouldUpdate, hF, hT,
    truthy_some_of_ne hTne, hb]

/-- C6 witness: the spec's Scenario B input. -/
theorem checkFinanceUpdateStatus_shapeInvalid_witness :
    checkFinanceUpdateStatus (.ok 200 "T") sFinInvalid =
      { shouldUpdate := true, cachedData := some finInvalid,
        serverTimestamp := some "T" } :=
  checkFinanceUpdateStatus_shapeInvalid sFinInvalid finInvalid "T" rfl rfl
    (by decide) (by decide) (by decide)

/-- C8: `shouldFetchPhoto v` returns true iff the check errored, or no photo
content is cached, or no cached version marker exists, or `v` differs from
the cached marker; in particular, with a cached photo and an unchanged marker
it returns false, so the photo is not re-downloaded. -/
theorem shouldFetchPhoto_spec (kvFail : Bool) (s : UserCacheState)
    (v : String) :
    (shouldFetchPhoto kvFail s v = true ↔
      (kvFail = true ∨ truthy s.photoBlob = false
        ∨ truthy s.photoTimestamp = false ∨ s.photoTimestamp ≠ some v))
    ∧ (truthy s.photoBlob = true → s.photoTimestamp = some v → v ≠ "" →
        shouldFetchPhoto false s v = false) := by
  constructor
  · unfold shouldFetchPhoto
    by_cases hk : kvFail <;> by_cases hb : truthy s.photoBlob <;>
      by_cases ht : truthy s.photoTimestamp <;>
        simp [hk, hb, ht, bne_iff_ne]
  · intro hb hts hv
    unfold shouldFetchPhoto
    rw [hts]
    simp [hb, truthy_some_of_ne hv]

/-- C8 witness: cached photo under marker `"t1"`, probe version `"t1"`. -/
theorem shouldFetchPhoto_spec_witness :
    shouldFetchPhoto false sPhotoCached "t1" = false :=
  (shouldFetchPhoto_spec false sPhotoCached "t1").2 (by decide) rfl (by decide)

/-- C9: the data-shape validity check accepts a bundle whenever its accounts
list is empty or at least one account has a defined balance; only a nonempty
list in which every account lacks a balance is invalid, and such a bundle
forces `determineShouldUpdate = true`. -/
theorem determineShouldUpdate_shape (d : CachedFinanceData) (ct ts : String) :
    (accountsHaveBalance d.accounts = true ↔
      (d.accounts = [] ∨ ∃ a ∈ d.accounts, a.balance ≠ none))
    ∧ (accountsHaveBalance d.accounts = false →
        determineShouldUpdate (some d) (some ct) ts = true) := by
  constructor
  · simp [accountsHaveBalance, List.length_eq_zero, List.any_eq_true,
      Option.isSome_iff_ne_none]
  · intro hb
    unfold determineShouldUpdate
    by_cases hct : truthy (some ct) <;> simp [hct, hb]

/-- C9 witness: the shape-invalid bundle forces an update on shape grounds
even with equal timestamps. -/
theorem determineShouldUpdate_shape_witness :
    determineShouldUpdate (some finInvalid) (some "T") "T" = true :=
  (determineShouldUpdate_shape finInvalid "T" "T").2 (by decide)

/-- C10: a successful `forceRefreshFinanceData` caches a freshly generated
client clock value `now` as the finance timestamp, never a server-issued one;
hence a later `checkFinanceUpdateStatus` whose probe returns the server's
unchanged timestamp `ts ≠ now` reports `shouldUpdate = true` although the
server data did not change. -/
theorem forceRefreshFinance_clientClock (s : FinanceCacheState)
    (tx : List String) (acc : List Account) (now ts : String)
    (hts : ts ≠ now) :
    (forceRefreshFinanceData (.ok 200 tx) (.ok 200 acc) now
        s).2.financeTimestamp = some now
    ∧ (checkFinanceUpdateStatus (.ok 200 ts)
        (forceRefreshFinanceData (.ok 200 tx) (.ok 200 acc) now
          s).2).shouldUpdate = true := by
  have hstate : (forceRefreshFinanceData (.ok 200 tx) (.ok 200 acc) now s).2 =
      cacheFinanceData now tx acc (some now) s := rfl
  rw [hstate]
  unfold cacheFinanceData checkFinanceUpdateStatus determineShouldUpdate
  dsimp only
  rw [jsOr_some_self]
  refine ⟨rfl, ?_⟩
  by_cases hnow : truthy (some now) <;>
    by_cases hbal : accountsHaveBalance acc <;>
      simp [hnow, hbal, bne_iff_ne, Ne.symm hts]

/-- C2 counterexample: with a sync already in flight (`isCurrentlySyncing =
true`) and an unsynced entry queued, a second `attemptSync` call returns
`false`, not success, although it does issue zero network requests. -/
theorem attemptSync_whileSyncing_counterexample :
    ¬ (attemptSync (.ok 200 uServer) none "now" sBusySync
        emptyUserCache).result = true
    ∧ (attemptSync (.ok 200 uServer) none "now" sBusySync
        emptyUserCache).networkCalls = 0 := by
  constructor <;> decide

/-- C2 (amended): while a prior sync's network request is in flight, a second
`attemptSync` call is a no-op that returns `false` and issues no second
network request; queue and cache are left untouched. -/
theorem attemptSync_whileSyncing_noop (mutateResp : NetResult UserData)
    (photoFetch : Option String) (now : String) (s : SyncState)
    (c : UserCacheState) (h : s.isCurrentlySyncing = true) :
    attemptSync mutateResp photoFetch now s c =
      { result := false, sync := s, cache := c, networkCalls := 0,
        sentData := none } := by
  simp [attemptSync, shouldAttemptSync, h]

/-- C2 witness: the concrete in-flight state. -/
theorem attemptSync_whileSyncing_noop_witness :
    attemptSync (.ok 500 uServer) none "now" sBusySync sUserCached =
      { result := false, sync := sBusySync, cache := sUserCached,
        networkCalls := 0, sentData := none } :=
  attemptSync_whileSyncing_noop (.ok 500 uServer) none "now" sBusySync
    sUserCached (by decide)

/-- C3: after any nonempty sequence of `queueUserUpdate` calls with no
intervening sync, the pending queue holds exactly one unsynced entry, and it
carries the data of the most recent enqueue (last-write-wins). -/
theorem enqueueAll_lastWriteWins (s : SyncState)
    (updates : List (List (String × String) × Nat)) (h : updates ≠ []) :
    (enqueueAll updates s).pendingUpdates.filter (fun u => !u.synced) =
      [{ data := (updates.getLast h).1, timestamp := (updates.getLast h).2,
         synced := false }] := by
  obtain ⟨l, x, hlx⟩ : ∃ l x, updates = l ++ [x] :=
    ⟨updates.dropLast, updates.getLast h,
      (List.dropLast_append_getLast h).symm⟩
  subst hlx
  rw [List.getLast_append]
  unfold enqueueAll
  rw [List.foldl_append]
  exact queueUserUpdate_unsynced x.1 x.2 _

/-- C3 witness: enqueue `name=Alice` then `name=Alicia` from an empty queue. -/
theorem enqueueAll_lastWriteWins_witness :
    (enqueueAll [([("name", "Alice")], 1), ([("name", "Alicia")], 2)]
        { pendingUpdates := [], isCurrentlySyncing := false }).pendingUpdates.filter
      (fun u => !u.synced) = [⟨[("name", "Alicia")], 2, false⟩] :=
  enqueueAll_lastWriteWins
    { pendingUpdates := [], isCurrentlySyncing := false }
    [([("name", "Alice")], 1), ([("name", "Alicia")], 2)] (by decide)

/-- C7: if the server mutation fails (thrown error or non-200 status),
`attemptSync` returns `false`, leaves every pending entry exactly as it was
(still unsynced), issues exactly one request (no automatic retry), leaves the
record cache untouched, and resets the syncing flag via the `finally`
cleanup. -/
theorem attemptSync_failure (photoFetch : Option String) (now : String)
    (s : SyncState) (c : UserCacheState) (status : Nat)
    (serverData : UserData) (hidle : s.isCurrentlySyncing = false)
    (hpend : s.pendingUpdates.filter (fun u => !u.synced) ≠ [])
    (hstatus : status ≠ 200) :
    attemptSync .err photoFetch now s c =
      { result := false, sync := s, cache := c, networkCalls := 1,
        sentData := ((s.pendingUpdates.filter
          (fun u => !u.synced)).getLast?).map (fun u => u.data) }
    ∧ attemptSync (.ok status serverData) photoFetch now s c =
      { result := false, sync := s, cache := c, networkCalls := 1,
        sentData := ((s.pendingUpdates.filter
          (fun u => !u.synced)).getLast?).map (fun u => u.data) } := by
  have hs : { s with isCurrentlySyncing := false } = s := by
    cases s
    simp_all
  have hlen : ((s.pendingUpdates.filter (fun u => !u.synced)).length == 0)
      = false := by
    simp [List.length_eq_zero, hpend]
  constructor <;>
    simp [attemptSync, shouldAttemptSync, performSync, hidle, hlen, hs,
      hstatus]

/-- C7 witness: a mutation answered with HTTP 500 over the idle queue. -/
theorem attemptSync_failure_witness :
    attemptSync (.ok 500 uServer) none "now" sIdleSync sUserCached =
      { result := false, sync := sIdleSync, cache := sUserCached,
        networkCalls := 1, sentData := some [("name", "Alicia")] } :=
  (attemptSync_failure none "now" sIdleSync sUserCached 500 uServer rfl
    (by decide) (by decide)).2

/-- C4: if unsynced entries exist and the server mutation succeeds with HTTP
200, the payload sent is the most recent unsynced entry's data, the server's
response is written back into the record cache with the server-returned
timestamp, every pending entry is marked synced (zero unsynced remain), and
`attemptSync` returns true. -/
theorem attemptSync_success (photoFetch : Option String) (now : String)
    (s : SyncState) (c : UserCacheState) (serverData : UserData)
    (tServ : String) (hidle : s.isCurrentlySyncing = false)
    (hpend : s.pendingUpdates.filter (fun u => !u.synced) ≠ [])
    (hupd : serverData.updated_at = some tServ) (htS : tServ ≠ "") :
    (attemptSync (.ok 200 serverData) photoFetch now s c).result = true
    ∧ (attemptSync (.ok 200 serverData) photoFetch now s c).sentData =
        some ((s.pendingUpdates.filter (fun u => !u.synced)).getLast
          hpend).data
    ∧ (attemptSync (.ok 200 serverData) photoFetch now s
        c).sync.pendingUpdates.filter (fun u => !u.synced) = []
    ∧ (attemptSync (.ok 200 serverData) photoFetch now s
        c).sync.isCurrentlySyncing = false
    ∧ (attemptSync (.ok 200 serverData) photoFetch now s c).cache.userData =
        some serverData
    ∧ (attemptSync (.ok 200 serverData) photoFetch now s
        c).cache.userUpdatedAt = some tServ
    ∧ (attemptSync (.ok 200 serverData) photoFetch now s c).networkCalls =
        1 := by
  have hlen : ((s.pendingUpdates.filter (fun u => !u.synced)).length == 0)
      = false := by
    simp [List.length_eq_zero, hpend]
  have hout : attemptSync (.ok 200 serverData) photoFetch now s c =
      performSync (.ok 200 serverData) photoFetch now
        (s.pendingUpdates.filter (fun u => !u.synced)) s c := by
    simp [attemptSync, shouldAttemptSync, hidle, hlen]
  rw [hout, performSync_ok200]
  refine ⟨rfl, ?_, ?_, rfl, ?_, ?_, rfl⟩
  · show ((s.pendingUpdates.filter
        (fun u => !u.synced)).getLast?).map (fun u => u.data) = _
    rw [List.getLast?_eq_getLast_of_ne_nil hpend]
    rfl
  · exact filter_unsynced_map_syncedTrue s.pendingUpdates
  · exact cacheUserData_userData photoFetch now serverData _ c
  · show some (jsOr serverData.updated_at serverData.created_at) = some tServ
    rw [hupd, jsOr_some_of_ne serverData.created_at htS]

/-- C4 witness: the spec's Scenario C response `{name: Alicia, updated_at:
t2}` against the idle queue. -/
theorem attemptSync_success_witness :
    (attemptSync (.ok 200 uServer) none "now" sIdleSync
        emptyUserCache).result = true
    ∧ (attemptSync (.ok 200 uServer) none "now" sIdleSync
        emptyUserCache).sentData = some [("name", "Alicia")]
    ∧ (attemptSync (.ok 200 uServer) none "now" sIdleSync
        emptyUserCache).sync.pendingUpdates.filter (fun u => !u.synced) = []
    ∧ (attemptSync (.ok 200 uServer) none "now" sIdleSync
        emptyUserCache).sync.isCurrentlySyncing = false
    ∧ (attemptSync (.ok 200 uServer) none "now" sIdleSync
        emptyUserCache).cache.userData = some uServer
    ∧ (attemptSync (.ok 200 uServer) none "now" sIdleSync
        emptyUserCache).cache.userUpdatedAt = some "t2"
    ∧ (attemptSync (.ok 200 uServer) none "now" sIdleSync
        emptyUserCache).networkCalls = 1 :=
  attemptSync_success none "now" sIdleSync emptyUserCache uServer "t2" rfl
    (by decide) rfl (by decide)

/-- C10 witness: refresh at client clock `"NOW"`, probe still answering the
server's `"T"`. -/
theorem forceRefreshFinance_clientClock_witness :
    (forceRefreshFinanceData (.ok 200 ["tx1"]) (.ok 200 [acctWithBal]) "NOW"
        sFinValid).2.financeTimestamp = some "NOW"
    ∧ (checkFinanceUpdateStatus (.ok 200 "T")
        (forceRefreshFinanceData (.ok 200 ["tx1"]) (.ok 200 [acctWithBal])
          "NOW" sFinValid).2).shouldUpdate = true :=
  forceRefreshFinance_clientClock sFinValid ["tx1"] [acctWithBal] "NOW" "T"
    (by decide)

end FinTrack
